import Mathlib

/-!
Verification of the Meliora audio-capture / transcription pipeline.

The definitions below are shallow embeddings of the TypeScript source:
  * character-list utilities model the JavaScript string operations
    (`toLowerCase`, `trim`, `includes`, global regex match counting);
  * `isLikelyHallucination` models the hallucination filter of the
    transcribe route;
  * `hasSignificantAudio` / `checkAudioVolume` model the client-side
    signal gate `checkAudioVolume`;
  * route models (`transcribePost`, `savePost`, `listTranscriptionsGet`,
    `summaryPost`) model the Next.js request handlers, with the external
    collaborators (Whisper, OpenAI, JSON.parse, Supabase storage) passed
    in as explicit oracles and state.
Audio amplitudes are modelled as rationals; machine floats only enter the
claims through order comparisons against fixed constants, which the
rational model represents exactly.
-/

namespace Meliora

/-- Boolean prefix test on character lists (models `String.startsWith`
at a given position; building block for substring search). -/
def isPrefixOfChars : List Char → List Char → Bool
  | [], _ => true
  | _ :: _, [] => false
  | a :: as, b :: bs => a == b && isPrefixOfChars as bs

/-- Boolean substring test on character lists: models JavaScript
`haystack.includes(needle)`. -/
def containsChars (p : List Char) : List Char → Bool
  | [] => p.isEmpty
  | c :: rest => isPrefixOfChars p (c :: rest) || containsChars p rest

/-- Count of non-overlapping, leftmost occurrences of `p`: models
`(s.match(/p/g) || []).length` for a fixed literal pattern. -/
def countOcc (p : List Char) : List Char → Nat
  | [] => 0
  | c :: rest =>
    if isPrefixOfChars p (c :: rest) then
      countOcc p (List.drop (p.length - 1) rest) + 1
    else
      countOcc p rest
termination_by s => s.length
decreasing_by
  · simp only [List.length_cons, List.length_drop]
    omega
  · simp only [List.length_cons]
    omega

/-- Whitespace recognized by JavaScript `trim` (the forms that occur in
this code base). -/
def isWsChar (c : Char) : Bool :=
  c == ' ' || c == '\t' || c == '\n' || c == '\r'

/-- Models JavaScript `s.trim()`. -/
def trimChars (s : List Char) : List Char :=
  ((s.dropWhile isWsChar).reverse.dropWhile isWsChar).reverse

/-- Models JavaScript `s.toLowerCase()` (the texts involved are ASCII). -/
def lowerChars (s : String) : List Char :=
  s.toList.map Char.toLower

/-- `transcriptionLower` of the transcribe route:
`transcription.text.toLowerCase().trim()`. -/
def normText (s : String) : List Char :=
  trimChars (lowerChars s)

/-- `haystack.includes(needle)` with a string needle. -/
def containsStr (hay : List Char) (needle : String) : Bool :=
  containsChars needle.toList hay

/-- The maintained hallucination phrase list of the transcribe route. -/
def hallucinations : List String :=
  ["thank you",
   "thanks for watching",
   "bye",
   "bye-bye",
   "transcribed by",
   "otter.ai",
   "thanks",
   "thank you very much",
   "goodbye",
   "see you later",
   "have a great day",
   "take care",
   "beadaholique.com",
   "beading supplies",
   "go to beadaholique",
   "for all of your",
   "supplies needs"]

/-- The hallucination filter decision of the transcribe route
(`isLikelyHallucination`), translated clause by clause. -/
def isLikelyHallucination (text : String) : Bool :=
  let transcriptionLower := normText text
  (decide (text.length < 100) &&
     hallucinations.any (fun phrase => containsChars (lowerChars phrase) transcriptionLower))
  || decide (3 ≤ countOcc ("thank you".toList) transcriptionLower)
  || containsStr transcriptionLower "otter.ai"
  || containsStr transcriptionLower "transcribed by"
  || (containsStr transcriptionLower ".com" && containsStr transcriptionLower "for all")
  || containsStr transcriptionLower "beadaholique"
  || (containsStr transcriptionLower "go to" && containsStr transcriptionLower ".com")
  || containsStr transcriptionLower "supplies needs"

/-- The fixed low threshold (0.005) of the client signal gate. -/
def gateLowThreshold : ℚ := 5 / 1000

/-- The body of the client gate's audio analysis (`checkAudioVolume`
after a successful `decodeAudioData`): peak, mean, and the percentage of
samples above the low threshold, combined by the three-way OR. -/
def hasSignificantAudio (channelData : List ℚ) : Bool :=
  let absData := channelData.map (fun x => |x|)
  let sum := absData.foldl (· + ·) 0
  let maxAmplitude := absData.foldl max 0
  let samplesAboveThreshold := (absData.filter (fun a => gateLowThreshold < a)).length
  let averageAmplitude := sum / (channelData.length : ℚ)
  let percentageAboveThreshold := ((samplesAboveThreshold : ℚ) / (channelData.length : ℚ)) * 100
  decide ((1 : ℚ) / 100 < maxAmplitude)
    || decide ((1 : ℚ) / 1000 < averageAmplitude)
    || decide ((1 : ℚ) < percentageAboveThreshold)

/-- The client signal gate `checkAudioVolume`: decoding/analysis is
modelled by an `Except` input; every error handler of the source
(`decodeAudioData` failure, `FileReader` failure, outer catch) resolves
`true`, collapsed here into the single error channel. -/
def checkAudioVolume (decoded : Except String (List ℚ)) : Bool :=
  match decoded with
  | .error _ => true
  | .ok channelData => hasSignificantAudio channelData

/-- A row of the `sessions` table (the columns the claims touch). -/
structure Session where
  id : String
  clerkUserId : String
deriving DecidableEq, Repr

/-- A row of the `transcriptions` table. -/
structure TranscriptionRow where
  sessionId : String
  text : String
  confidence : ℚ
  timestamp : Nat
  speaker : String
  duration : Option ℚ
  chunkIndex : Option Nat
  audioUrl : Option String
deriving DecidableEq, Repr

/-- The structured summary parsed out of the text-generation response
(the `AISummary` interface). -/
structure AISummary where
  keyTopics : List String
  mainConcerns : List String
  progressNotes : String
  nextSteps : List String
  riskAssessment : String
  overallSummary : String
deriving DecidableEq, Repr

/-- A row of the `session_summaries` table (the columns `saveSummary`
writes). -/
structure SummaryRow where
  sessionId : String
  summary : AISummary
  sessionDurationMinutes : Nat
  transcriptLength : Nat
  transcriptionCount : Nat
  confidence : ℚ
deriving DecidableEq, Repr

/-- The relational store, restricted to the tables the claims touch. -/
structure Db where
  sessions : List Session
  transcriptions : List TranscriptionRow
  summaries : List SummaryRow
deriving DecidableEq, Repr

/-- The Supabase storage bucket: an association of object keys to blob
contents (blob bytes are modelled by an opaque `Nat` identifier). -/
structure Storage where
  blobs : List (String × Nat)
deriving DecidableEq, Repr

/-- `supabaseAdmin.from(sessions).eq(id).eq(clerk_user_id).single()`:
the session row owned by `uid`, if any. -/
def findSession (db : Db) (sid uid : String) : Option Session :=
  db.sessions.find? (fun s => s.id == sid && s.clerkUserId == uid)

/-- All `transcriptions` rows of one session, in table order. -/
def sessionRecords (db : Db) (sid : String) : List TranscriptionRow :=
  db.transcriptions.filter (fun t => t.sessionId == sid)

/-- The order used by `.order(timestamp, ascending true)`. -/
def timestampLE (a b : TranscriptionRow) : Prop :=
  a.timestamp ≤ b.timestamp

instance : DecidableRel timestampLE := fun a b =>
  inferInstanceAs (Decidable (a.timestamp ≤ b.timestamp))

instance : IsTotal TranscriptionRow timestampLE :=
  ⟨fun a b => Nat.le_total a.timestamp b.timestamp⟩

instance : IsTrans TranscriptionRow timestampLE :=
  ⟨fun _ _ _ h h' => Nat.le_trans h h'⟩

/-- The session's rows sorted as the routes fetch them:
`.eq(session_id, sid).order(timestamp, ascending true)`. -/
def fetchByTimestamp (db : Db) (sid : String) : List TranscriptionRow :=
  List.insertionSort timestampLE (sessionRecords db sid)

/-- The ordering the spec mandates for stitching, written from the
spec's words for comparison with the source's ordering: chunk index
ascending, then timestamp ascending. -/
def chunkIndexThenTimestampLE (a b : TranscriptionRow) : Prop :=
  a.chunkIndex.getD 0 < b.chunkIndex.getD 0 ∨
    (a.chunkIndex.getD 0 = b.chunkIndex.getD 0 ∧ a.timestamp ≤ b.timestamp)

instance (a b : TranscriptionRow) : Decidable (chunkIndexThenTimestampLE a b) := by
  unfold chunkIndexThenTimestampLE
  infer_instance

/-- Spec-side ordering of a session's rows (chunk index, then
timestamp), for comparison with `fetchByTimestamp`. -/
def specOrder (rows : List TranscriptionRow) : List TranscriptionRow :=
  List.insertionSort chunkIndexThenTimestampLE rows

/-- Response of GET `/api/sessions/[id]/transcriptions`. -/
structure ListResponse where
  status : Nat
  transcriptions : List TranscriptionRow
deriving DecidableEq, Repr

/-- GET `/api/sessions/[id]/transcriptions`: fetch the session's rows
ordered by timestamp, then verify ownership only when at least one row
was fetched. -/
def listTranscriptionsGet (db : Db) (userId : Option String) (sessionId : String) :
    ListResponse :=
  match userId with
  | none => ⟨401, []⟩
  | some uid =>
    let transcriptions := fetchByTimestamp db sessionId
    if 0 < transcriptions.length then
      match findSession db sessionId uid with
      | none => ⟨404, []⟩
      | some _ => ⟨200, transcriptions⟩
    else
      ⟨200, transcriptions⟩

/-- Request body of POST `/api/sessions/[id]/transcriptions` (fields that
JavaScript destructuring may leave `undefined` are `Option`s). -/
structure SaveBody where
  text : String
  confidence : Option ℚ
  timestamp : Option Nat
  speaker : Option String
  duration : Option ℚ
  chunkIndex : Option Nat
  audioUrl : Option String
deriving DecidableEq, Repr

/-- `x || d` on a JSON number: `undefined`, `null` and `0` all fall back
to the default. -/
def numOrDefault (x : Option ℚ) (d : ℚ) : ℚ :=
  match x with
  | none => d
  | some c => if c = 0 then d else c

/-- Response of POST `/api/sessions/[id]/transcriptions`. -/
structure SaveResponse where
  status : Nat
  transcription : Option TranscriptionRow
deriving DecidableEq, Repr

/-- POST `/api/sessions/[id]/transcriptions`: verify ownership, then
insert the row (`confidence || 0.95`, `speaker || 'user'`,
`timestamp || now`). -/
def savePost (db : Db) (userId : Option String) (sessionId : String)
    (b : SaveBody) (now : Nat) : SaveResponse × Db :=
  match userId with
  | none => (⟨401, none⟩, db)
  | some uid =>
    match findSession db sessionId uid with
    | none => (⟨404, none⟩, db)
    | some _ =>
      let row : TranscriptionRow :=
        { sessionId := sessionId
          text := b.text
          confidence := numOrDefault b.confidence (95 / 100)
          timestamp := b.timestamp.getD now
          speaker := b.speaker.getD "user"
          duration := b.duration
          chunkIndex := b.chunkIndex
          audioUrl := b.audioUrl }
      (⟨200, some row⟩, { db with transcriptions := db.transcriptions ++ [row] })

/-- Output of the speech-to-text capability (`openai.audio.transcriptions.create`). -/
structure WhisperOut where
  text : String
  duration : ℚ
deriving DecidableEq, Repr

/-- Observable side effects of the transcribe route, in program order. -/
inductive Effect where
  | uploadAttempt (key : String)
  | sttCall
deriving DecidableEq, Repr

/-- Response body of POST `/api/transcribe` (`audioUrl` is the
`debug.audioUrl` field the client reads back). -/
structure TranscribeResponse where
  status : Nat
  text : String
  confidence : ℚ
  timestamp : Nat
  duration : Option ℚ
  audioUrl : Option String
deriving DecidableEq, Repr

/-- Result of one POST `/api/transcribe` call: the response, the storage
bucket afterwards, and the trace of effects in the order the handler
performed them. -/
structure TranscribeResult where
  resp : TranscribeResponse
  storage : Storage
  trace : List Effect
deriving DecidableEq, Repr

/-- The storage key of the transcribe route:
`sessionId ++ "/audio-" ++ timestamp ++ ".webm"`. -/
def audioKey (sessionId : String) (timestampMs : Nat) : String :=
  sessionId ++ "/audio-" ++ toString timestampMs ++ ".webm"

/-- POST `/api/transcribe`: upload the chunk's bytes under `audioKey`
(failure merely logged), then call Whisper, then apply the hallucination
filter to decide between the empty-text and verbatim responses.
`uploadOk` models whether the storage upload succeeds. -/
def transcribePost (storage : Storage) (userId : Option String)
    (audioFile : Option Nat) (sessionId : Option String)
    (nowMs : Nat) (uploadOk : Bool) (whisper : Nat → WhisperOut) : TranscribeResult :=
  match userId with
  | none => ⟨⟨401, "", 0, nowMs, none, none⟩, storage, []⟩
  | some _ =>
    match audioFile, sessionId with
    | some audio, some sid =>
      let key := audioKey sid nowMs
      let storage2 := if uploadOk then ⟨storage.blobs ++ [(key, audio)]⟩ else storage
      let audioUrl := if uploadOk then some key else none
      let w := whisper audio
      if isLikelyHallucination w.text then
        ⟨⟨200, "", 0, nowMs, some w.duration, audioUrl⟩, storage2,
         [.uploadAttempt key, .sttCall]⟩
      else
        ⟨⟨200, w.text, 95 / 100, nowMs, some w.duration, audioUrl⟩, storage2,
         [.uploadAttempt key, .sttCall]⟩
    | _, _ => ⟨⟨400, "", 0, nowMs, none, none⟩, storage, []⟩

/-- The client's handling of a transcribe response (`transcribeAudio`
after `fetch` resolves): a non-ok status throws (no save); a save is
issued only when `result.text && result.text.trim()`; the body's
`chunkIndex` is `Math.floor(Date.now() / 1000)` evaluated at this point,
i.e. at response-processing time `saveNowMs`. -/
def clientProcessResponse (r : TranscribeResponse) (saveNowMs : Nat) : List SaveBody :=
  if r.status ≠ 200 then []
  else if r.text ≠ "" ∧ trimChars r.text.toList ≠ [] then
    [{ text := r.text
       confidence := some (if r.confidence = 0 then 9 / 10 else r.confidence)
       timestamp := some r.timestamp
       speaker := some "user"
       duration := r.duration
       chunkIndex := some (saveNowMs / 1000)
       audioUrl := r.audioUrl }]
  else []

/-- One full client chunk pipeline run (`transcribeAudio`): skip empty
blobs, run the signal gate, call the transcribe route, then issue the
database save(s) the client decides on. Returns the storage bucket and
database afterwards. -/
def clientChunk (storage : Storage) (db : Db) (uid sid : String)
    (blobSize : Nat) (decoded : Except String (List ℚ)) (audio : Nat)
    (serverNowMs : Nat) (uploadOk : Bool) (whisper : Nat → WhisperOut)
    (saveNowMs : Nat) : Storage × Db :=
  if blobSize = 0 then (storage, db)
  else if checkAudioVolume decoded = false then (storage, db)
  else
    let r := transcribePost storage (some uid) (some audio) (some sid) serverNowMs uploadOk whisper
    let bodies := clientProcessResponse r.resp saveNowMs
    let db2 := bodies.foldl (fun d b => (savePost d (some uid) sid b (b.timestamp.getD 0)).2) db
    (r.storage, db2)

/-- Split `s` at the first occurrence of `p`: the part before the match
and the part after it (building block for the regex models). -/
def splitFirst (p : List Char) : List Char → Option (List Char × List Char)
  | [] => if p.isEmpty then some ([], []) else none
  | c :: rest =>
    if isPrefixOfChars p (c :: rest) then
      some ([], List.drop p.length (c :: rest))
    else
      match splitFirst p rest with
      | some (pre, post) => some (c :: pre, post)
      | none => none

/-- The opening fence of a json code block. -/
def fenceOpen : List Char := "```json".toList

/-- A closing fence. -/
def fenceClose : List Char := "```".toList

/-- The capture group of `aiResponse.match` applied to the fenced-block
regex: the text strictly between the first occurrence of the opening
json fence and the next closing fence, with surrounding whitespace
absorbed by the regex's whitespace classes (so: trimmed). `none` when no
such fenced block exists. -/
def fencedJsonBlock (s : List Char) : Option (List Char) :=
  match splitFirst fenceOpen s with
  | none => none
  | some (_, rest) =>
    match splitFirst fenceClose rest with
    | none => none
    | some (inner, _) => some (trimChars inner)

/-- `aiResponse.indexOf` of a character. -/
def firstIdxOf (c : Char) (s : List Char) : Option Nat :=
  s.findIdx? (fun x => x == c)

/-- `aiResponse.lastIndexOf` of a character. -/
def lastIdxOf (c : Char) (s : List Char) : Option Nat :=
  match (s.reverse.findIdx? (fun x => x == c)) with
  | none => none
  | some k => some (s.length - 1 - k)

/-- The brace-delimited fallback of the summary parser: the slice from
the first opening brace to the last closing brace inclusive, required
non-degenerate (`jsonEnd > jsonStart`). -/
def braceSlice (s : List Char) : Option (List Char) :=
  match firstIdxOf (Char.ofNat 123) s, lastIdxOf (Char.ofNat 125) s with
  | some jsonStart, some jsonEnd =>
    if jsonStart < jsonEnd then
      some ((s.drop jsonStart).take (jsonEnd + 1 - jsonStart))
    else
      none
  | _, _ => none

/-- Which parsing strategies `callOpenAIWithTranscript` actually
attempted, in order. -/
inductive ParseAttempt where
  | strict
  | fenced
  | brace
deriving DecidableEq, Repr

/-- The error message every parse failure of the summary parser
surfaces. -/
def invalidAIResponse : String := "Invalid response format from AI"

/-- The response-parsing logic of `callOpenAIWithTranscript`, with
`JSON.parse`-plus-cast modelled by the `parse` oracle, instrumented with
the list of strategies attempted in order: strict parse; on failure the
fenced-block extraction (whose parse failure is fatal when the captured
group is non-empty — the falsy check `jsonMatch && jsonMatch[1]`); and
the brace-delimited slice only when no non-empty fenced group exists. -/
def extractJsonTrace (parse : String → Option AISummary) (aiResponse : String) :
    Except String AISummary × List ParseAttempt :=
  match parse aiResponse with
  | some j => (.ok j, [.strict])
  | none =>
    let braceAttempt : Except String AISummary :=
      match braceSlice aiResponse.toList with
      | some sub =>
        match parse (String.mk sub) with
        | some j => .ok j
        | none => .error invalidAIResponse
      | none => .error invalidAIResponse
    match fencedJsonBlock aiResponse.toList with
    | some inner =>
      if inner ≠ [] then
        match parse (String.mk inner) with
        | some j => (.ok j, [.strict, .fenced])
        | none => (.error invalidAIResponse, [.strict, .fenced])
      else (braceAttempt, [.strict, .fenced, .brace])
    | none => (braceAttempt, [.strict, .fenced, .brace])

/-- The response-parsing logic of `callOpenAIWithTranscript` (result
only). -/
def extractJson (parse : String → Option AISummary) (aiResponse : String) :
    Except String AISummary :=
  (extractJsonTrace parse aiResponse).1

/-- `AISummaryService.getSessionSummary`: ownership check (throwing on
failure), then the session's summary row, if any. -/
def getSessionSummary (db : Db) (sessionId userId : String) :
    Except String (Option SummaryRow) :=
  match findSession db sessionId userId with
  | none => .error "Session not found or unauthorized"
  | some _ => .ok (db.summaries.find? (fun r => r.sessionId == sessionId))

/-- Result of `generateSessionSummaryFromTranscript`: the thrown-or-
returned value, the database afterwards, and whether the OpenAI
completion call was made. -/
structure GenResult where
  result : Except String SummaryRow
  db : Db
  openaiCalled : Bool
deriving Repr

/-- `AISummaryService.generateSessionSummaryFromTranscript`: ownership
check, early return of an existing summary row (no OpenAI call, no
write), otherwise one completion call (`aiResponse`, `none` modelling a
missing `choices[0].message.content`), response parsing, and the
`saveSummary` insert. -/
def generateSessionSummaryFromTranscript (db : Db) (sessionId userId : String)
    (fullTranscript : String) (transcriptionCount : Nat)
    (parse : String → Option AISummary) (aiResponse : Option String) : GenResult :=
  match findSession db sessionId userId with
  | none => ⟨.error "Session not found or unauthorized", db, false⟩
  | some _ =>
    match db.summaries.find? (fun r => r.sessionId == sessionId) with
    | some existingSummary => ⟨.ok existingSummary, db, false⟩
    | none =>
      match aiResponse with
      | none => ⟨.error "No response from OpenAI", db, true⟩
      | some resp =>
        match extractJson parse resp with
        | .error e => ⟨.error e, db, true⟩
        | .ok parsed =>
          let row : SummaryRow :=
            { sessionId := sessionId
              summary := parsed
              sessionDurationMinutes := 0
              transcriptLength := fullTranscript.length
              transcriptionCount := transcriptionCount
              confidence := 9 / 10 }
          ⟨.ok row, { db with summaries := db.summaries ++ [row] }, true⟩

/-- The `fullTranscript` assembly of the summary route: fetch the
session's rows ordered by timestamp, keep the truthy (non-empty) texts,
and join with single spaces. -/
def summaryTranscript (db : Db) (sessionId : String) : String :=
  String.intercalate " "
    (((fetchByTimestamp db sessionId).map (fun t => t.text)).filter (fun t => t ≠ ""))

/-- Result of POST `/api/sessions/[id]/summary`. -/
structure SummaryPostResult where
  status : Nat
  summary : Option SummaryRow
  db : Db
  openaiCalled : Bool
deriving Repr

/-- The tail of the summary POST handler shared by the forced and
unforced paths: build the full transcript, fail when it is empty, then
delegate to `generateSessionSummaryFromTranscript`. -/
def summaryPostGenerate (db : Db) (uid sid : String)
    (parse : String → Option AISummary) (aiResponse : Option String) :
    SummaryPostResult :=
  let fullTranscript := summaryTranscript db sid
  if fullTranscript = "" then ⟨500, none, db, false⟩
  else
    let g := generateSessionSummaryFromTranscript db sid uid fullTranscript
      (sessionRecords db sid).length parse aiResponse
    match g.result with
    | .error _ => ⟨500, none, g.db, g.openaiCalled⟩
    | .ok row => ⟨200, some row, g.db, g.openaiCalled⟩

/-- POST `/api/sessions/[id]/summary`: unless `forceRegenerate` is set,
an existing summary is returned as-is; otherwise (and when none exists)
the handler builds the transcript and generates. Thrown errors surface
as status 500 through the handler's catch. -/
def summaryPost (db : Db) (userId : Option String) (sessionId : Option String)
    (forceRegenerate : Bool) (parse : String → Option AISummary)
    (aiResponse : Option String) : SummaryPostResult :=
  match userId with
  | none => ⟨401, none, db, false⟩
  | some uid =>
    match sessionId with
    | none => ⟨400, none, db, false⟩
    | some sid =>
      if forceRegenerate = false then
        match getSessionSummary db sid uid with
        | .error _ => ⟨500, none, db, false⟩
        | .ok (some existingSummary) => ⟨200, some existingSummary, db, false⟩
        | .ok none => summaryPostGenerate db uid sid parse aiResponse
      else
        summaryPostGenerate db uid sid parse aiResponse

theorem foldl_max_init_le (l : List ℚ) (a : ℚ) : a ≤ l.foldl max a := by
  induction l generalizing a with
  | nil => exact le_refl a
  | cons b bs ih => exact le_trans (le_max_left a b) (ih (max a b))

theorem le_foldl_max_of_mem {x : ℚ} {l : List ℚ} (hx : x ∈ l) (a : ℚ) :
    x ≤ l.foldl max a := by
  induction hx generalizing a with
  | head bs => exact le_trans (le_max_right a x) (foldl_max_init_le bs (max a x))
  | tail b _ ih => exact ih (max a b)

/-- C5: if audio decoding or analysis itself fails with an error, the
signal gate `checkAudioVolume` returns PASS (`true`): the chunk is still
sent for transcription rather than dropped. -/
theorem gate_fail_open (e : String) : checkAudioVolume (Except.error e) = true := rfl

/-- C6: for every decoded audio chunk containing a sample whose absolute
amplitude exceeds 0.01 (hence whose peak amplitude exceeds 0.01), the
signal gate returns PASS, regardless of the chunk's mean amplitude or
the percentage of samples above the low threshold. -/
theorem gate_pass_of_peak (samples : List ℚ) (x : ℚ) (hx : x ∈ samples)
    (hpeak : 1 / 100 < |x|) : checkAudioVolume (Except.ok samples) = true := by
  have hmem : |x| ∈ samples.map (fun y => |y|) := List.mem_map_of_mem _ hx
  have hle : |x| ≤ (samples.map (fun y => |y|)).foldl max 0 := le_foldl_max_of_mem hmem 0
  have hlt : (1 : ℚ) / 100 < (samples.map (fun y => |y|)).foldl max 0 :=
    lt_of_lt_of_le hpeak hle
  simp only [checkAudioVolume, hasSignificantAudio, Bool.or_eq_true, decide_eq_true_eq]
  exact Or.inl (Or.inl hlt)

/-- Witness for C6 at the concrete chunk `[1/2]`. -/
theorem gate_pass_of_peak_witness : checkAudioVolume (Except.ok [(1 : ℚ) / 2]) = true :=
  gate_pass_of_peak [(1 : ℚ) / 2] ((1 : ℚ) / 2) (List.mem_singleton.mpr rfl)
    (by rw [abs_of_pos (by norm_num)]; norm_num)

unseal countOcc in
/-- C7 counterexample: the transcript "go to example.com" contains none
of the maintained filler/sign-off phrases and zero occurrences of
"thank you", yet the transcribe route does not return it unchanged: the
advertising co-occurrence check (`go to` together with `.com`) flags it
and the route responds with empty text. -/
theorem filter_clean_text_changed_counterexample :
    hallucinations.all
        (fun p => !containsChars (lowerChars p) (normText "go to example.com")) = true
    ∧ countOcc ("thank you".toList) (normText "go to example.com") < 3
    ∧ isLikelyHallucination "go to example.com" = true
    ∧ (transcribePost ⟨[]⟩ (some "u") (some 7) (some "s") 1000 true
        (fun _ => ⟨"go to example.com", 3⟩)).resp.text = ""
    ∧ "go to example.com" ≠ "" := by
  decide

/-- C7 amended: for every transcript text that contains none of the
maintained filler/sign-off phrases (case-insensitive substring match),
has fewer than 3 occurrences of "thank you", does not contain
"beadaholique", and does not match either advertising co-occurrence
pattern (".com" together with "for all", or "go to" together with
".com"), the transcribe route returns the text unchanged, exactly as
produced by the transcription backend. -/
theorem filter_clean_text_unchanged (text : String)
    (hphr : ∀ p ∈ hallucinations, containsChars (lowerChars p) (normText text) = false)
    (hty : countOcc ("thank you".toList) (normText text) < 3)
    (hbead : containsStr (normText text) "beadaholique" = false)
    (hcomforall : (containsStr (normText text) ".com"
      && containsStr (normText text) "for all") = false)
    (hgotocom : (containsStr (normText text) "go to"
      && containsStr (normText text) ".com") = false)
    (storage : Storage) (uid sid : String) (audio nowMs : Nat) (uploadOk : Bool)
    (whisper : Nat → WhisperOut) (hw : (whisper audio).text = text) :
    (transcribePost storage (some uid) (some audio) (some sid) nowMs uploadOk
      whisper).resp.text = text := by
  have hany : hallucinations.any
      (fun phrase => containsChars (lowerChars phrase) (normText text)) = false := by
    rw [List.any_eq_false]
    intro p hp
    simp [hphr p hp]
  have hcnt : decide (3 ≤ countOcc ("thank you".toList) (normText text)) = false :=
    decide_eq_false (by omega)
  have hotter : containsStr (normText text) "otter.ai" = false := by
    have h := hphr "otter.ai" (by decide)
    rwa [show lowerChars "otter.ai" = "otter.ai".toList from by decide] at h
  have htrans : containsStr (normText text) "transcribed by" = false := by
    have h := hphr "transcribed by" (by decide)
    rwa [show lowerChars "transcribed by" = "transcribed by".toList from by decide] at h
  have hsupp : containsStr (normText text) "supplies needs" = false := by
    have h := hphr "supplies needs" (by decide)
    rwa [show lowerChars "supplies needs" = "supplies needs".toList from by decide] at h
  have hflag : isLikelyHallucination text = false := by
    simp only [isLikelyHallucination, hany, hcnt, hotter, htrans, hsupp, hbead,
      hcomforall, hgotocom, Bool.and_false, Bool.or_false, Bool.false_or]
  simp only [transcribePost, hw, hflag, Bool.false_eq_true, if_false]

unseal countOcc in
/-- Witness for C7 at the concrete clean transcript "hello world". -/
theorem filter_clean_text_unchanged_witness :
    (transcribePost ⟨[]⟩ (some "u") (some 7) (some "s") 1000 true
      (fun _ => ⟨"hello world", 3⟩)).resp.text = "hello world" :=
  filter_clean_text_unchanged "hello world" (by decide) (by decide) (by decide)
    (by decide) (by decide) ⟨[]⟩ "u" "s" 7 1000 true _ rfl

unseal countOcc in
/-- C1 counterexample: for the flagged transcription "Thank you." the
pipeline persists NO chunk/transcription record at all — the claim's
empty-text record does not exist — even though the raw audio blob is
retained in storage. -/
theorem flagged_chunk_not_persisted_counterexample :
    isLikelyHallucination "Thank you." = true
    ∧ (clientChunk ⟨[]⟩ ⟨[⟨"s", "u"⟩], [], []⟩ "u" "s" 5 (Except.error "decode failed") 7
        1000 true (fun _ => ⟨"Thank you.", 3⟩) 2000).2.transcriptions = []
    ∧ (clientChunk ⟨[]⟩ ⟨[⟨"s", "u"⟩], [], []⟩ "u" "s" 5 (Except.error "decode failed") 7
        1000 true (fun _ => ⟨"Thank you.", 3⟩) 2000).1.blobs
      = [(audioKey "s" 1000, 7)] := by
  decide

/-- C1 amended/corrected: when the hallucination filter flags a chunk's
transcription, the transcribe route responds with an empty-string text
(not null) and zero confidence and the uploaded raw audio blob is
retained in storage, but no chunk/transcription record is persisted for
the chunk: the client skips the database save whenever the returned
text is empty, so the flagged chunk keeps no place in the stored
chunk-record sequence. -/
theorem flagged_chunk_effects (storage : Storage) (db : Db) (uid sid : String)
    (blobSize : Nat) (decoded : Except String (List ℚ))
    (audio serverNowMs saveNowMs : Nat) (whisper : Nat → WhisperOut)
    (hflag : isLikelyHallucination (whisper audio).text = true) :
    (transcribePost storage (some uid) (some audio) (some sid) serverNowMs true
        whisper).resp.text = ""
    ∧ (transcribePost storage (some uid) (some audio) (some sid) serverNowMs true
        whisper).resp.confidence = 0
    ∧ (audioKey sid serverNowMs, audio)
        ∈ (transcribePost storage (some uid) (some audio) (some sid) serverNowMs true
            whisper).storage.blobs
    ∧ (clientChunk storage db uid sid blobSize decoded audio serverNowMs true whisper
        saveNowMs).2.transcriptions = db.transcriptions := by
  have htp : transcribePost storage (some uid) (some audio) (some sid) serverNowMs true
      whisper
      = ⟨⟨200, "", 0, serverNowMs, some (whisper audio).duration,
          some (audioKey sid serverNowMs)⟩,
         ⟨storage.blobs ++ [(audioKey sid serverNowMs, audio)]⟩,
         [.uploadAttempt (audioKey sid serverNowMs), .sttCall]⟩ := by
    simp only [transcribePost, hflag, if_true]
  refine ⟨by rw [htp], by rw [htp], by rw [htp]; simp, ?_⟩
  by_cases h0 : blobSize = 0
  · simp [clientChunk, h0]
  · by_cases hg : checkAudioVolume decoded = false
    · simp [clientChunk, h0, hg]
    · simp [clientChunk, h0, hg, htp, clientProcessResponse]

unseal countOcc in
/-- Witness for C1 on the concrete flagged transcript "Thank you.". -/
theorem flagged_chunk_effects_witness :
    (transcribePost ⟨[]⟩ (some "u") (some 7) (some "s") 1000 true
        (fun _ => ⟨"Thank you.", 3⟩)).resp.text = ""
    ∧ (transcribePost ⟨[]⟩ (some "u") (some 7) (some "s") 1000 true
        (fun _ => ⟨"Thank you.", 3⟩)).resp.confidence = 0
    ∧ (audioKey "s" 1000, 7)
        ∈ (transcribePost ⟨[]⟩ (some "u") (some 7) (some "s") 1000 true
            (fun _ => ⟨"Thank you.", 3⟩)).storage.blobs
    ∧ (clientChunk ⟨[]⟩ ⟨[⟨"s", "u"⟩], [], []⟩ "u" "s" 5 (Except.error "decode failed") 7
        1000 true (fun _ => ⟨"Thank you.", 3⟩) 2000).2.transcriptions
      = (⟨[⟨"s", "u"⟩], [], []⟩ : Db).transcriptions :=
  flagged_chunk_effects ⟨[]⟩ ⟨[⟨"s", "u"⟩], [], []⟩ "u" "s" 5 (Except.error "decode failed")
    7 1000 2000 (fun _ => ⟨"Thank you.", 3⟩) (by decide)

unseal countOcc in
/-- C3 counterexample: two chunks are emitted back-to-back (transcribe
calls at 1000ms and 4000ms) but their responses resolve in reverse
order: the second chunk's response is processed at 5200ms, the first's
at 6400ms. The recorded indices are 6 for the first chunk and 5 for the
second — the second emitted chunk's index is NOT strictly greater than
the first's, because the index is Math.floor(Date.now()/1000) taken at
response-processing time, not a counter assigned at emission. -/
theorem chunkIndex_not_monotonic_counterexample :
    (clientProcessResponse (transcribePost ⟨[]⟩ (some "u") (some 1) (some "s") 1000 true
        (fun _ => ⟨"hello one", 3⟩)).resp 6400).map (fun b => b.chunkIndex)
      = [some 6]
    ∧ (clientProcessResponse (transcribePost ⟨[]⟩ (some "u") (some 2) (some "s") 4000 true
        (fun _ => ⟨"hello two", 3⟩)).resp 5200).map (fun b => b.chunkIndex)
      = [some 5]
    ∧ ¬ ((5 : Nat) > 6) := by
  decide

/-- C3 amended/corrected: a chunk's recorded index is not assigned at
emission by a monotonic counter; every save body the client issues
carries `chunkIndex = Math.floor(saveNowMs / 1000)` where `saveNowMs`
is the wall-clock time at which that chunk's transcription RESPONSE is
processed, so back-to-back chunks can receive equal or decreasing
indices when their responses resolve within the same second or in
reverse order. -/
theorem chunkIndex_is_response_processing_time (r : TranscribeResponse)
    (saveNowMs : Nat) (b : SaveBody) (hb : b ∈ clientProcessResponse r saveNowMs) :
    b.chunkIndex = some (saveNowMs / 1000) := by
  unfold clientProcessResponse at hb
  split at hb
  · cases hb
  · split at hb
    · rw [List.mem_singleton.mp hb]
    · cases hb

/-- Witness for C3: the save body of a response processed at 6400ms
carries chunk index 6400 / 1000 = 6. -/
theorem chunkIndex_is_response_processing_time_witness :
    ({ text := "hi"
       confidence := some (if (0 : ℚ) = 0 then 9 / 10 else 0)
       timestamp := some 1000
       speaker := some "user"
       duration := none
       chunkIndex := some (6400 / 1000)
       audioUrl := none } : SaveBody).chunkIndex = some (6400 / 1000) :=
  chunkIndex_is_response_processing_time ⟨200, "hi", 0, 1000, none, none⟩ 6400 _
    (List.mem_singleton.mpr rfl)

/-- C8: in the transcribe route the raw chunk bytes are uploaded to the
blob store strictly before the speech-to-text call (first and second
entries of the effect trace), under the key
`sessionId ++ "/audio-" ++ timestamp ++ ".webm"`; the uploaded blob is
present in storage afterwards unconditionally, and the resulting
storage is independent of the transcription outcome — in particular the
audio is retained when the transcript is flagged as a hallucination,
the keep-audio decision being independent of the keep-text decision. -/
theorem upload_before_stt_and_audio_retained (storage : Storage) (uid sid : String)
    (audio nowMs : Nat) (whisper : Nat → WhisperOut) :
    (transcribePost storage (some uid) (some audio) (some sid) nowMs true whisper).trace
      = [Effect.uploadAttempt (audioKey sid nowMs), Effect.sttCall]
    ∧ (transcribePost storage (some uid) (some audio) (some sid) nowMs true
        whisper).storage.blobs = storage.blobs ++ [(audioKey sid nowMs, audio)]
    ∧ (transcribePost storage (some uid) (some audio) (some sid) nowMs true
        whisper).resp.audioUrl = some (audioKey sid nowMs)
    ∧ ∀ whisper2 : Nat → WhisperOut,
        (transcribePost storage (some uid) (some audio) (some sid) nowMs true
          whisper2).storage
        = (transcribePost storage (some uid) (some audio) (some sid) nowMs true
            whisper).storage := by
  refine ⟨?_, ?_, ?_, ?_⟩
  · simp only [transcribePost]
    split <;> rfl
  · simp only [transcribePost]
    split <;> rfl
  · simp only [transcribePost]
    split <;> rfl
  · intro whisper2
    simp only [transcribePost]
    by_cases h1 : isLikelyHallucination (whisper2 audio).text = true <;>
      by_cases h2 : isLikelyHallucination (whisper audio).text = true <;>
        simp [h1, h2]

theorem listTranscriptionsGet_some (db : Db) (uid sid : String) :
    listTranscriptionsGet db (some uid) sid
      = if 0 < (fetchByTimestamp db sid).length then
          match findSession db sid uid with
          | none => ⟨404, []⟩
          | some _ => ⟨200, fetchByTimestamp db sid⟩
        else ⟨200, fetchByTimestamp db sid⟩ := rfl

/-- C2 counterexample: a session whose chunk-index order disagrees with
its timestamp order. The listing route returns the records in timestamp
order (indices [2, 1]) — not the claimed (chunk index, timestamp) order
(indices [1, 2]) — and the summary route's transcript is likewise
assembled in timestamp order ("world hello", not "hello world"). -/
theorem ordering_by_timestamp_only_counterexample :
    ((listTranscriptionsGet ⟨[⟨"s", "u"⟩],
        [⟨"s", "world", 1, 1, "user", none, some 2, none⟩,
         ⟨"s", "hello", 1, 2, "user", none, some 1, none⟩], []⟩
        (some "u") "s").transcriptions.map (fun t => t.chunkIndex))
      = [some 2, some 1]
    ∧ ((specOrder (sessionRecords ⟨[⟨"s", "u"⟩],
        [⟨"s", "world", 1, 1, "user", none, some 2, none⟩,
         ⟨"s", "hello", 1, 2, "user", none, some 1, none⟩], []⟩ "s")).map
          (fun t => t.chunkIndex))
      = [some 1, some 2]
    ∧ ([some 2, some 1] : List (Option Nat)) ≠ [some 1, some 2]
    ∧ summaryTranscript ⟨[⟨"s", "u"⟩],
        [⟨"s", "world", 1, 1, "user", none, some 2, none⟩,
         ⟨"s", "hello", 1, 2, "user", none, some 1, none⟩], []⟩ "s"
      = "world hello"
    ∧ "world hello" ≠ "hello world" := by
  decide

/-- C2 amended/corrected: whenever the listing route succeeds it returns
the session's records sorted by timestamp ascending ALONE (a permutation
of the session's records whose timestamps are pairwise nondecreasing;
chunk index plays no part), and the summary route assembles its full
transcript from exactly that timestamp-ordered record list (non-empty
texts joined by single spaces). -/
theorem listing_and_summary_order_by_timestamp (db : Db) (uid sid : String)
    (h200 : (listTranscriptionsGet db (some uid) sid).status = 200) :
    (listTranscriptionsGet db (some uid) sid).transcriptions.Pairwise timestampLE
    ∧ (listTranscriptionsGet db (some uid) sid).transcriptions.Perm (sessionRecords db sid)
    ∧ summaryTranscript db sid
      = String.intercalate " "
          ((((listTranscriptionsGet db (some uid) sid).transcriptions).map
              (fun t => t.text)).filter (fun t => t ≠ "")) := by
  have key : (listTranscriptionsGet db (some uid) sid).transcriptions
      = fetchByTimestamp db sid := by
    rw [listTranscriptionsGet_some] at h200 ⊢
    by_cases hlen : 0 < (fetchByTimestamp db sid).length
    · rw [if_pos hlen] at h200 ⊢
      rcases hfs : findSession db sid uid with _ | s
      · rw [hfs] at h200
        simp at h200
      · rfl
    · rw [if_neg hlen]
  have hsorted : (fetchByTimestamp db sid).Pairwise timestampLE :=
    List.sorted_insertionSort timestampLE (sessionRecords db sid)
  have hperm : (fetchByTimestamp db sid).Perm (sessionRecords db sid) :=
    List.perm_insertionSort timestampLE (sessionRecords db sid)
  refine ⟨key ▸ hsorted, key ▸ hperm, ?_⟩
  rw [key]
  rfl

/-- Witness for C2 on a concrete one-record session. -/
theorem listing_and_summary_order_by_timestamp_witness :
    ((listTranscriptionsGet ⟨[⟨"s", "u"⟩], [⟨"s", "hi", 1, 5, "user", none, some 0, none⟩],
        []⟩ (some "u") "s").transcriptions.Pairwise timestampLE)
    ∧ (listTranscriptionsGet ⟨[⟨"s", "u"⟩], [⟨"s", "hi", 1, 5, "user", none, some 0, none⟩],
        []⟩ (some "u") "s").transcriptions.Perm
        (sessionRecords ⟨[⟨"s", "u"⟩], [⟨"s", "hi", 1, 5, "user", none, some 0, none⟩], []⟩
          "s")
    ∧ summaryTranscript ⟨[⟨"s", "u"⟩], [⟨"s", "hi", 1, 5, "user", none, some 0, none⟩], []⟩
        "s"
      = String.intercalate " "
          ((((listTranscriptionsGet ⟨[⟨"s", "u"⟩],
              [⟨"s", "hi", 1, 5, "user", none, some 0, none⟩], []⟩
              (some "u") "s").transcriptions).map (fun t => t.text)).filter
            (fun t => t ≠ "")) :=
  listing_and_summary_order_by_timestamp
    ⟨[⟨"s", "u"⟩], [⟨"s", "hi", 1, 5, "user", none, some 0, none⟩], []⟩ "u" "s" rfl

/-- C4 counterexample: for an authenticated caller and a session id that
does not exist at all (no session row, no transcription rows), the
listing route returns a 200 success with an empty list — not the
NotFound the claim requires for absent sessions. -/
theorem missing_session_listing_succeeds_counterexample :
    (listTranscriptionsGet ⟨[], [], []⟩ (some "alice") "s1").status = 200
    ∧ (listTranscriptionsGet ⟨[], [], []⟩ (some "alice") "s1").transcriptions = []
    ∧ findSession ⟨[], [], []⟩ "s1" "alice" = none
    ∧ (200 : Nat) ≠ 404 := by
  decide

/-- C4 amended/corrected: for an authenticated caller the listing route
returns NotFound exactly when the session has at least one transcription
record AND no session row with that id is owned by the caller (absent
and not-owned being indistinguishable); when the session has no
transcription records the route skips the ownership check entirely and
returns success with an empty list, even if the session is absent or
owned by another principal. -/
theorem listing_notFound_iff (db : Db) (uid sid : String) :
    ((listTranscriptionsGet db (some uid) sid).status = 404
      ↔ sessionRecords db sid ≠ [] ∧ findSession db sid uid = none)
    ∧ (sessionRecords db sid = [] → listTranscriptionsGet db (some uid) sid = ⟨200, []⟩) := by
  have hlen := (List.perm_insertionSort timestampLE (sessionRecords db sid)).length_eq
  constructor
  · constructor
    · intro h404
      rw [listTranscriptionsGet_some] at h404
      by_cases hlen0 : 0 < (fetchByTimestamp db sid).length
      · rw [if_pos hlen0] at h404
        rcases hfs : findSession db sid uid with _ | s
        · refine ⟨?_, rfl⟩
          intro hnil
          rw [fetchByTimestamp, hnil] at hlen0
          simp at hlen0
        · rw [hfs] at h404
          simp at h404
      · rw [if_neg hlen0] at h404
        simp at h404
    · rintro ⟨hne, hfs⟩
      rw [listTranscriptionsGet_some]
      have hlen0 : 0 < (fetchByTimestamp db sid).length := by
        unfold fetchByTimestamp
        rw [hlen]
        exact List.length_pos.mpr hne
      rw [if_pos hlen0, hfs]
  · intro hnil
    have hfetch : fetchByTimestamp db sid = [] := by
      unfold fetchByTimestamp
      rw [hnil]
      rfl
    rw [listTranscriptionsGet_some, hfetch]
    rfl

/-- Witness for C4: a not-owned session with one transcription record is
reported NotFound. -/
theorem listing_notFound_iff_witness :
    (listTranscriptionsGet ⟨[⟨"s", "bob"⟩], [⟨"s", "x", 1, 1, "user", none, some 0, none⟩],
        []⟩ (some "alice") "s").status = 404 :=
  (listing_notFound_iff ⟨[⟨"s", "bob"⟩], [⟨"s", "x", 1, 1, "user", none, some 0, none⟩], []⟩
      "alice" "s").1.mpr ⟨by decide, by decide⟩

instance : DecidableEq (Except String AISummary) := fun x y =>
  match x, y with
  | .error a, .error b => decidable_of_iff (a = b) (by simp)
  | .ok a, .ok b => decidable_of_iff (a = b) (by simp)
  | .error _, .ok _ => isFalse (fun h => Except.noConfusion h)
  | .ok _, .error _ => isFalse (fun h => Except.noConfusion h)

theorem summaryPost_some (db : Db) (uid sid : String) (force : Bool)
    (parse : String → Option AISummary) (ai : Option String) :
    summaryPost db (some uid) (some sid) force parse ai
      = if force = false then
          match getSessionSummary db sid uid with
          | .error _ => ⟨500, none, db, false⟩
          | .ok (some existingSummary) => ⟨200, some existingSummary, db, false⟩
          | .ok none => summaryPostGenerate db uid sid parse ai
        else summaryPostGenerate db uid sid parse ai := rfl

/-- The structured summary value of the C9 counterexample. -/
def sampleSummary : AISummary := ⟨[], [], "", [], "", ""⟩

/-- Stand-in for `JSON.parse` plus cast in the C9 counterexample. It
agrees with `JSON.parse` on the three strings the counterexample
evaluates: the full response and the fenced inner text are not valid
JSON, while the brace-delimited substring is. -/
def sampleParse (s : String) : Option AISummary :=
  if s = "\x7b\"a\": 1\x7d" then some sampleSummary else none

/-- C9 counterexample: on the response
`see ```json oops``` and \x7b"a": 1\x7d` the strict parse fails, the
fenced block extraction finds the unparseable "oops", and the parser
raises the error right there — the brace strategy is never attempted
(the trace stops at [strict, fenced]) even though the brace-delimited
substring would have parsed. So an error is raised before all three
strategies have failed. -/
theorem parse_chain_skips_brace_counterexample :
    extractJson sampleParse "see ```json oops``` and \x7b\"a\": 1\x7d"
      = .error invalidAIResponse
    ∧ (extractJsonTrace sampleParse "see ```json oops``` and \x7b\"a\": 1\x7d").2
      = [.strict, .fenced]
    ∧ braceSlice ("see ```json oops``` and \x7b\"a\": 1\x7d".toList)
      = some ("\x7b\"a\": 1\x7d".toList)
    ∧ sampleParse "\x7b\"a\": 1\x7d" = some sampleSummary := by
  decide

/-- C9 amended/corrected: the summary parser tries strict parse, then
fenced-block extraction, then the brace-delimited substring, in that
order (the attempt trace is always a prefix of
[strict, fenced, brace]: strict alone exactly when the strict parse
succeeds, all three exactly when the strict parse fails and no
non-empty fenced block exists) — EXCEPT that when a non-empty fenced
block is found and its parse fails, the error is raised immediately
without attempting the brace-delimited extraction. A parse failure
affects only that invocation: when extraction fails,
`generateSessionSummaryFromTranscript` returns the error and leaves the
database (in particular the stored summaries) unchanged. -/
theorem parse_chain_order (parse : String → Option AISummary) (resp : String) :
    extractJson parse resp = (extractJsonTrace parse resp).1
    ∧ ((extractJsonTrace parse resp).2 = [.strict]
        ∨ (extractJsonTrace parse resp).2 = [.strict, .fenced]
        ∨ (extractJsonTrace parse resp).2 = [.strict, .fenced, .brace])
    ∧ ((extractJsonTrace parse resp).2 = [.strict] ↔ (parse resp).isSome = true)
    ∧ ((extractJsonTrace parse resp).2 = [.strict, .fenced, .brace]
        ↔ parse resp = none
          ∧ (fencedJsonBlock resp.toList = none ∨ fencedJsonBlock resp.toList = some []))
    ∧ (∀ (db : Db) (sid uid full : String) (cnt : Nat) (e : String),
        extractJson parse resp = .error e
        → (generateSessionSummaryFromTranscript db sid uid full cnt parse
            (some resp)).db = db) := by
  refine ⟨rfl, ?_, ?_, ?_, ?_⟩
  · simp only [extractJsonTrace]
    rcases parse resp with _ | j
    · rcases fencedJsonBlock resp.toList with _ | inner
      · simp
      · by_cases hi : inner = []
        · simp [hi]
        · rcases hpi : parse (String.mk inner) with _ | j2 <;> simp [hi, hpi]
    · simp
  · simp only [extractJsonTrace]
    rcases parse resp with _ | j
    · rcases fencedJsonBlock resp.toList with _ | inner
      · simp
      · by_cases hi : inner = []
        · simp [hi]
        · rcases hpi : parse (String.mk inner) with _ | j2 <;> simp [hi, hpi]
    · simp
  · simp only [extractJsonTrace]
    rcases parse resp with _ | j
    · rcases fencedJsonBlock resp.toList with _ | inner
      · simp
      · by_cases hi : inner = []
        · simp [hi]
        · rcases hpi : parse (String.mk inner) with _ | j2 <;> simp [hi, hpi]
    · simp
  · intro db sid uid full cnt e hext
    unfold generateSessionSummaryFromTranscript
    cases hfs : findSession db sid uid
    · rfl
    · cases hfind : db.summaries.find? (fun r => r.sessionId == sid)
      · simp [hext]
      · rfl

/-- Witness for C9: with a parse oracle that accepts nothing and the
response "x" (no fence, no braces), extraction fails and the summary
generation leaves the database unchanged. -/
theorem parse_chain_order_witness :
    (generateSessionSummaryFromTranscript ⟨[⟨"s", "u"⟩], [], []⟩ "s" "u" "t" 0
        (fun _ => none) (some "x")).db = ⟨[⟨"s", "u"⟩], [], []⟩ :=
  (parse_chain_order (fun _ => none) "x").2.2.2.2 ⟨[⟨"s", "u"⟩], [], []⟩ "s" "u" "t" 0
    invalidAIResponse rfl

/-- C10: if a summary already exists for a session (whose transcript is
non-empty), a summary-generation request with forceRegenerate = true
still returns the existing stored summary and leaves it unchanged: no
text-generation call is made and the stored summary row is not
overwritten, and the forced request produces exactly the same result as
a non-forced request. -/
theorem forceRegenerate_returns_existing (db : Db) (uid sid : String) (s : Session)
    (ex : SummaryRow) (parse : String → Option AISummary) (ai : Option String)
    (hs : findSession db sid uid = some s)
    (hex : db.summaries.find? (fun r => r.sessionId == sid) = some ex)
    (hft : summaryTranscript db sid ≠ "") :
    summaryPost db (some uid) (some sid) true parse ai = ⟨200, some ex, db, false⟩
    ∧ summaryPost db (some uid) (some sid) true parse ai
      = summaryPost db (some uid) (some sid) false parse ai := by
  have hgen : generateSessionSummaryFromTranscript db sid uid (summaryTranscript db sid)
      (sessionRecords db sid).length parse ai = ⟨.ok ex, db, false⟩ := by
    unfold generateSessionSummaryFromTranscript
    rw [hs, hex]
  have hpost : summaryPostGenerate db uid sid parse ai = ⟨200, some ex, db, false⟩ := by
    unfold summaryPostGenerate
    rw [if_neg hft, hgen]
  have hforced : summaryPost db (some uid) (some sid) true parse ai
      = ⟨200, some ex, db, false⟩ := by
    rw [summaryPost_some, if_neg (by simp), hpost]
  have hunforced : summaryPost db (some uid) (some sid) false parse ai
      = ⟨200, some ex, db, false⟩ := by
    rw [summaryPost_some, if_pos rfl]
    unfold getSessionSummary
    rw [hs, hex]
  exact ⟨hforced, hforced.trans hunforced.symm⟩

/-- Witness for C10 on a concrete session with one transcription row and
an existing summary row. -/
theorem forceRegenerate_returns_existing_witness :
    summaryPost ⟨[⟨"s", "u"⟩], [⟨"s", "hi", 1, 1, "user", none, some 0, none⟩],
        [⟨"s", sampleSummary, 0, 2, 1, 9 / 10⟩]⟩ (some "u") (some "s") true
        (fun _ => none) none
      = ⟨200, some ⟨"s", sampleSummary, 0, 2, 1, 9 / 10⟩,
          ⟨[⟨"s", "u"⟩], [⟨"s", "hi", 1, 1, "user", none, some 0, none⟩],
            [⟨"s", sampleSummary, 0, 2, 1, 9 / 10⟩]⟩, false⟩
    ∧ summaryPost ⟨[⟨"s", "u"⟩], [⟨"s", "hi", 1, 1, "user", none, some 0, none⟩],
        [⟨"s", sampleSummary, 0, 2, 1, 9 / 10⟩]⟩ (some "u") (some "s") true
        (fun _ => none) none
      = summaryPost ⟨[⟨"s", "u"⟩], [⟨"s", "hi", 1, 1, "user", none, some 0, none⟩],
          [⟨"s", sampleSummary, 0, 2, 1, 9 / 10⟩]⟩ (some "u") (some "s") false
          (fun _ => none) none :=
  forceRegenerate_returns_existing
    ⟨[⟨"s", "u"⟩], [⟨"s", "hi", 1, 1, "user", none, some 0, none⟩],
      [⟨"s", sampleSummary, 0, 2, 1, 9 / 10⟩]⟩ "u" "s" ⟨"s", "u"⟩
    ⟨"s", sampleSummary, 0, 2, 1, 9 / 10⟩ (fun _ => none) none rfl rfl (by decide)

end Meliora
